import Mathlib

/-!
Shallow embedding of the thermal-geometric estimation engine of the
`heatsink_for_pcb` repository (files `HeatsinkDesigner/thermal_model.py`,
`HeatsinkDesigner/geometry_builder.py`, `HeatsinkDesigner/cnc_defaults.py`,
`HeatsinkDesigner/heatsink_types.py`, and the height-from-power search of
`HeatsinkDesigner/gui_dim_mode.py` / `gui_face_mode.py`).

Python floats are modelled as real numbers.  The availability of the optional
`fluids` backend (module-level flag `FLUIDS_AVAILABLE`) is modelled as an
explicit boolean parameter `fluids_available` threaded through the functions
that consult air properties.  Exceptions (`ValueError`) are modelled with
`Except String`, keeping the exact message strings of the source.  Display-only
data (the `notes : List[str]` field of `GeometryDetails`, and the
`"RH {value}%"` label formatting of `generate_performance_curve`, which keys
its result dictionary by humidity) is not modelled; the curve dictionary is
keyed directly by the humidity value.
-/

namespace HeatsinkDesigner

noncomputable section

/-! ### Constants (thermal_model.py, lines 23-29) -/

def DEFAULT_T_AMB_C : ℝ := 25.0

def DEFAULT_REL_HUMIDITY : ℝ := 50.0

def DEFAULT_DELTA_T : ℝ := 40.0

def AIR_THERMAL_CONDUCTIVITY : ℝ := 0.026

def AIR_PRANDTL : ℝ := 0.71

def AIR_DENSITY : ℝ := 1.184

def AIR_VISCOSITY : ℝ := 1.85e-5

/-! ### Data structures (thermal_model.py) -/

structure Environment where
  temperature_c : ℝ
  relative_humidity : ℝ

structure GeometrySummary where
  base_area_m2 : ℝ
  effective_area_m2 : ℝ
  characteristic_length_m : ℝ

structure ThermalResult where
  convection_coefficient : ℝ
  heat_dissipation_w : ℝ
  surface_temperature_c : ℝ

/-- `convert_mm_to_m` of thermal_model.py. -/
def convert_mm_to_m (value_mm : ℝ) : ℝ := value_mm / 1000.0

/-- `_saturation_pressure_pa` of thermal_model.py (Tetens formula). -/
def saturation_pressure_pa (temp_c : ℝ) : ℝ :=
  610.94 * Real.exp ((17.625 * temp_c) / (temp_c + 243.04))

structure AirProperties where
  density : ℝ
  thermal_conductivity : ℝ
  prandtl : ℝ
  viscosity : ℝ

/-- `compute_air_properties` of thermal_model.py.  The `fluids_available`
branch computes humidity-corrected density; the fallback uses `AIR_DENSITY`. -/
def compute_air_properties (fluids_available : Bool) (temp_c relative_humidity : ℝ) :
    AirProperties :=
  let density :=
    if fluids_available then
      (101325 - relative_humidity / 100.0 * saturation_pressure_pa temp_c) /
        (287.058 * (temp_c + 273.15))
    else AIR_DENSITY
  ⟨density, AIR_THERMAL_CONDUCTIVITY, AIR_PRANDTL, AIR_VISCOSITY⟩

/-- `convection_coefficient_natural` of thermal_model.py.  Note that air
properties are always evaluated at the fixed defaults `(25 °C, 50 % RH)`,
never at a caller-supplied environment.  `rayleigh ** 0.25` is modelled with
the total `Real.rpow`; this agrees with Python for `delta_t ≥ 0` (nonnegative
Rayleigh number), while for `delta_t < 0` Python produces a complex number and
the subsequent `max(h, 3.0)` raises `TypeError` — theorems about this function
therefore restrict the over-temperature to be nonnegative wherever that path
is reached. -/
def convection_coefficient_natural (fluids_available : Bool)
    (geometry : GeometrySummary) (delta_t : ℝ) : ℝ :=
  let properties := compute_air_properties fluids_available DEFAULT_T_AMB_C DEFAULT_REL_HUMIDITY
  let beta := 1.0 / (DEFAULT_T_AMB_C + 273.15)
  let g := 9.81
  let grashof := g * beta * delta_t * geometry.characteristic_length_m ^ 3 *
    properties.density ^ 2 / properties.viscosity ^ 2
  let rayleigh := grashof * properties.prandtl
  let nu := 0.68 + (0.67 * rayleigh ^ (0.25 : ℝ)) /
    ((1 + (0.492 / properties.prandtl) ^ ((9.0 : ℝ) / 16.0)) ^ ((4.0 : ℝ) / 9.0))
  max (nu * properties.thermal_conductivity / geometry.characteristic_length_m) 3.0

/-- `effective_area_with_fins` of thermal_model.py. -/
def effective_area_with_fins (base_area_m2 fin_area_m2 fin_efficiency : ℝ) : ℝ :=
  base_area_m2 + fin_efficiency * fin_area_m2

/-- `estimate_fin_efficiency` of thermal_model.py.  The Python source computes
`m` with `(...)**0.5`, which agrees with `Real.sqrt` for a nonnegative
radicand (positive conductivity); for a negative radicand Python produces a
complex `m` and the call fails, while this model returns `Real.sqrt _ = 0` —
theorems that need a nonzero efficiency assume a positive conductivity.
`np.clip(eta, 0.0, 1.0)` is `min 1 (max 0 eta)`. -/
def estimate_fin_efficiency (fin_thickness_mm fin_height_mm
    material_conductivity_w_mk convection_coeff_w_m2k : ℝ) : ℝ :=
  let thickness_m := convert_mm_to_m fin_thickness_mm
  let height_m := convert_mm_to_m fin_height_mm
  if thickness_m ≤ 0 ∨ height_m ≤ 0 then 0.0
  else
    let m := Real.sqrt (2.0 * convection_coeff_w_m2k / (material_conductivity_w_mk * thickness_m))
    let eta := Real.tanh (m * height_m) / (m * height_m)
    min 1.0 (max 0.0 eta)

/-! ### `estimate_heat_dissipation` (thermal_model.py, lines 237-303).
The local quantities `a_eff`, `a_base`, `r_conv`, `r_cond` are factored into
named definitions mirroring the local variables of the source. -/

def a_eff_of (geometry : GeometrySummary) : ℝ :=
  max geometry.effective_area_m2 1e-12

def a_base_of (geometry : GeometrySummary) (base_contact_area_m2 : Option ℝ) : ℝ :=
  max (base_contact_area_m2.getD geometry.base_area_m2) 1e-12

def r_conv_of (fluids_available : Bool) (geometry : GeometrySummary)
    (target_overtemp_c : ℝ) : ℝ :=
  1.0 / (convection_coefficient_natural fluids_available geometry target_overtemp_c *
    a_eff_of geometry)

def r_cond_of (base_thickness_m : Option ℝ) (material_conductivity_w_mk a_base : ℝ) : ℝ :=
  match base_thickness_m with
  | some bt => if 0 < bt ∧ 0 < material_conductivity_w_mk
      then bt / (material_conductivity_w_mk * a_base) else 0
  | none => 0

/-- `estimate_heat_dissipation` of thermal_model.py: two-resistor network.
Design mode (`power_input_w = none`) reports `Q_max = ΔT / (R_cond + R_conv)`;
verification mode (`power_input_w = some p`) reports `Q = max p 0`. -/
def estimate_heat_dissipation (fluids_available : Bool) (geometry : GeometrySummary)
    (environment : Environment) (power_input_w : Option ℝ) (target_overtemp_c : ℝ)
    (base_thickness_m : Option ℝ) (material_conductivity_w_mk : ℝ)
    (base_contact_area_m2 : Option ℝ) : ThermalResult :=
  let h := convection_coefficient_natural fluids_available geometry target_overtemp_c
  let r_conv := r_conv_of fluids_available geometry target_overtemp_c
  let r_cond := r_cond_of base_thickness_m material_conductivity_w_mk
    (a_base_of geometry base_contact_area_m2)
  let r_tot := r_conv + r_cond
  match power_input_w with
  | none =>
    if r_tot ≤ 0 then ⟨h, 0, environment.temperature_c⟩
    else ⟨h, target_overtemp_c / r_tot,
      environment.temperature_c + target_overtemp_c / r_tot * r_conv⟩
  | some p =>
    let q := max p 0
    ⟨h, q, environment.temperature_c + q * r_conv⟩

/-- The ambient temperature list of `generate_performance_curve`:
`np.arange(t_min, t_max, t_step)` for integer arguments and positive step. -/
def temps_of_range (temp_range_c : ℤ × ℤ × ℤ) : List ℤ :=
  let t_min := temp_range_c.1
  let t_max := temp_range_c.2.1
  let t_step := temp_range_c.2.2
  if 0 < t_step then
    (List.range ((t_max - t_min + t_step - 1) / t_step).toNat).map
      (fun k => t_min + k * t_step)
  else []

/-- `generate_performance_curve` of thermal_model.py: for each humidity level,
sweep the ambient temperature and record `(temp, Q_max)` pairs. -/
def generate_performance_curve (fluids_available : Bool) (geometry : GeometrySummary)
    (humidity_points : List ℝ) (temp_range_c : ℤ × ℤ × ℤ) (delta_t_c : ℝ)
    (base_thickness_m : Option ℝ) (material_conductivity_w_mk : ℝ)
    (base_contact_area_m2 : Option ℝ) : List (ℝ × List (ℝ × ℝ)) :=
  humidity_points.map (fun rh =>
    (rh, (temps_of_range temp_range_c).map (fun temp =>
      ((temp : ℝ),
        (estimate_heat_dissipation fluids_available geometry ⟨(temp : ℝ), rh⟩ none
          delta_t_c base_thickness_m material_conductivity_w_mk
          base_contact_area_m2).heat_dissipation_w))))

/-! ### Geometry builder (geometry_builder.py, analytical half).
`ValueError` raises are modelled with `Except.error` carrying the exact
message string.  The builders below inline `_validate_positive` as explicit
tests, in the same order as the Python validation loops. -/

structure BaseDimensions where
  length_mm : ℝ
  width_mm : ℝ
  base_thickness_mm : ℝ

/-- `GeometryDetails` of geometry_builder.py (the display-only `notes` list is
not modelled). -/
structure GeometryDetails where
  geometry : GeometrySummary
  fin_count : Option ℤ
  fin_area_m2 : Option ℝ

/-- `_base_area` of geometry_builder.py. -/
def base_area_of (base : BaseDimensions) : ℝ :=
  convert_mm_to_m base.length_mm * convert_mm_to_m base.width_mm

/-- `_characteristic_length` of geometry_builder.py. -/
def characteristic_length_of (base : BaseDimensions) : ℝ :=
  max (convert_mm_to_m base.length_mm) (convert_mm_to_m base.width_mm)

/-- `build_solid_plate` of geometry_builder.py. -/
def build_solid_plate (base : BaseDimensions) (material_conductivity_w_mk : ℝ) :
    Except String GeometryDetails :=
  if base.base_thickness_mm ≤ 0 then Except.error "base_thickness_mm must be positive"
  else
    let area := base_area_of base
    Except.ok ⟨⟨area, area, characteristic_length_of base⟩, none, none⟩

/-- `build_straight_fins` of geometry_builder.py.  `int(usable // pitch)` on
floats is the real floor for the values reached here. -/
def build_straight_fins (base : BaseDimensions)
    (fin_height_mm fin_thickness_mm fin_gap_mm material_conductivity_w_mk : ℝ) :
    Except String GeometryDetails :=
  if fin_height_mm ≤ 0 then Except.error "fin_height_mm must be positive"
  else if fin_thickness_mm ≤ 0 then Except.error "fin_thickness_mm must be positive"
  else if fin_gap_mm ≤ 0 then Except.error "fin_gap_mm must be positive"
  else
    let pitch_mm := fin_thickness_mm + fin_gap_mm
    let usable_width_mm := base.width_mm - fin_gap_mm
    if pitch_mm ≤ 0 ∨ usable_width_mm ≤ 0 then
      Except.error "Invalid fin pitch or width for straight fins"
    else
      let fin_count : ℤ := ⌊usable_width_mm / pitch_mm⌋ + 1
      let fin_area_m2 := (fin_count : ℝ) * 2 * convert_mm_to_m fin_height_mm *
        convert_mm_to_m base.length_mm
      let base_area := base_area_of base
      let fin_eff := estimate_fin_efficiency fin_thickness_mm fin_height_mm
        material_conductivity_w_mk 8.0
      let effective_area := effective_area_with_fins base_area fin_area_m2 fin_eff
      Except.ok ⟨⟨base_area, effective_area, characteristic_length_of base⟩,
        some fin_count, some fin_area_m2⟩

/-- `build_crosscut` of geometry_builder.py. -/
def build_crosscut (base : BaseDimensions)
    (pin_height_mm pin_size_mm groove_width_mm material_conductivity_w_mk : ℝ) :
    Except String GeometryDetails :=
  if pin_height_mm ≤ 0 then Except.error "pin_height_mm must be positive"
  else if pin_size_mm ≤ 0 then Except.error "pin_size_mm must be positive"
  else if groove_width_mm ≤ 0 then Except.error "groove_width_mm must be positive"
  else
    let pitch_mm := pin_size_mm + groove_width_mm
    if pitch_mm ≤ 0 then Except.error "Invalid pitch in crosscut geometry"
    else
      let count_x : ℤ := ⌊(base.length_mm + groove_width_mm) / pitch_mm⌋
      let count_y : ℤ := ⌊(base.width_mm + groove_width_mm) / pitch_mm⌋
      let pin_count : ℤ := max count_x 1 * max count_y 1
      let pin_side_m := convert_mm_to_m pin_size_mm
      let pin_area_m2 := (pin_count : ℝ) * 4 * pin_side_m * convert_mm_to_m pin_height_mm
      let base_area := base_area_of base
      let fin_eff := estimate_fin_efficiency pin_size_mm pin_height_mm
        material_conductivity_w_mk 8.0
      let effective_area := effective_area_with_fins base_area pin_area_m2 fin_eff
      Except.ok ⟨⟨base_area, effective_area, characteristic_length_of base⟩,
        some pin_count, some pin_area_m2⟩

/-- `build_pin_fin` of geometry_builder.py. -/
def build_pin_fin (base : BaseDimensions)
    (pin_height_mm pin_size_mm pitch_mm material_conductivity_w_mk : ℝ) :
    Except String GeometryDetails :=
  if pin_height_mm ≤ 0 then Except.error "pin_height_mm must be positive"
  else if pin_size_mm ≤ 0 then Except.error "pin_size_mm must be positive"
  else if pitch_mm ≤ 0 then Except.error "pitch_mm must be positive"
  else
    let count_x : ℤ := ⌊(base.length_mm + pitch_mm - pin_size_mm) / pitch_mm⌋
    let count_y : ℤ := ⌊(base.width_mm + pitch_mm - pin_size_mm) / pitch_mm⌋
    let pin_count : ℤ := max count_x 1 * max count_y 1
    let pin_area_m2 := (pin_count : ℝ) * 4 * convert_mm_to_m pin_size_mm *
      convert_mm_to_m pin_height_mm
    let base_area := base_area_of base
    let fin_eff := estimate_fin_efficiency pin_size_mm pin_height_mm
      material_conductivity_w_mk 8.0
    let effective_area := effective_area_with_fins base_area pin_area_m2 fin_eff
    Except.ok ⟨⟨base_area, effective_area, characteristic_length_of base⟩,
      some pin_count, some pin_area_m2⟩

/-- `DEFAULT_CNC_PARAMS` of cnc_defaults.py, as a per-type keyed lookup. -/
def DEFAULT_CNC_PARAMS (heatsink_type name : String) : Option ℝ :=
  if heatsink_type = "straight_fins" then
    if name = "fin_thickness_mm" then some 2.0
    else if name = "fin_gap_mm" then some 3.0
    else if name = "base_thickness_mm" then some 5.0
    else if name = "fin_height_mm" then some 20.0
    else none
  else if heatsink_type = "crosscut" then
    if name = "groove_width_mm" then some 3.0
    else if name = "pin_size_mm" then some 3.0
    else if name = "pin_height_mm" then some 15.0
    else if name = "base_thickness_mm" then some 5.0
    else none
  else if heatsink_type = "pin_fin" then
    if name = "pin_size_mm" then some 5.0
    else if name = "pitch_mm" then some 8.0
    else if name = "pin_height_mm" then some 20.0
    else if name = "base_thickness_mm" then some 5.0
    else none
  else if heatsink_type = "solid_plate" then
    if name = "base_thickness_mm" then some 10.0 else none
  else none

/-- Lookup in `merged = {**defaults, **params}` of `build_geometry`.  For the
four registered types the defaults table covers every key the builders read,
so the lookup is total (the `.getD 0` fallback is unreachable there). -/
def merged_get (heatsink_type : String) (params : String → Option ℝ) (name : String) : ℝ :=
  (match params name with
   | some v => some v
   | none => DEFAULT_CNC_PARAMS heatsink_type name).getD 0

/-- `build_geometry` of geometry_builder.py: dispatch on the archetype key.
`merged.pop("material_conductivity_w_mk", 205.0)` reads the caller params
(the defaults table has no such key). -/
def build_geometry (heatsink_type : String) (base_dimensions : ℝ × ℝ × ℝ)
    (params : String → Option ℝ) : Except String GeometryDetails :=
  let base : BaseDimensions :=
    ⟨base_dimensions.1, base_dimensions.2.1, base_dimensions.2.2⟩
  let material_k := (params "material_conductivity_w_mk").getD 205.0
  if heatsink_type = "solid_plate" then build_solid_plate base material_k
  else if heatsink_type = "straight_fins" then
    build_straight_fins base
      (merged_get heatsink_type params "fin_height_mm")
      (merged_get heatsink_type params "fin_thickness_mm")
      (merged_get heatsink_type params "fin_gap_mm")
      material_k
  else if heatsink_type = "crosscut" then
    build_crosscut base
      (merged_get heatsink_type params "pin_height_mm")
      (merged_get heatsink_type params "pin_size_mm")
      (merged_get heatsink_type params "groove_width_mm")
      material_k
  else if heatsink_type = "pin_fin" then
    build_pin_fin base
      (merged_get heatsink_type params "pin_height_mm")
      (merged_get heatsink_type params "pin_size_mm")
      (merged_get heatsink_type params "pitch_mm")
      material_k
  else Except.error ("Unknown heatsink type: " ++ heatsink_type)

/-! ### Height-from-power search (gui_dim_mode.py `_find_height_for_type`,
identical loop in gui_face_mode.py `_update_result_label`). -/

/-- `HEIGHT_PARAM_MAP` of gui_dim_mode.py / gui_face_mode.py. -/
def HEIGHT_PARAM_MAP (type_key : String) : Option String :=
  if type_key = "solid_plate" then some "base_thickness_mm"
  else if type_key = "straight_fins" then some "fin_height_mm"
  else if type_key = "crosscut" then some "pin_height_mm"
  else if type_key = "pin_fin" then some "pin_height_mm"
  else none

/-- The parameter dictionary used by `q_for_height`: CNC defaults for the
type, with `material_conductivity_w_mk` set and the height parameter `hp`
overridden to `h_mm`. -/
def search_params (type_key : String) (material_k : ℝ) (hp : String) (h_mm : ℝ) :
    String → Option ℝ := fun name =>
  if name = hp then some h_mm
  else if name = "material_conductivity_w_mk" then some material_k
  else DEFAULT_CNC_PARAMS type_key name

/-- The local closure `q_for_height` of `_find_height_for_type`: rebuild the
geometry at height `h_mm` and return the design-mode `Q_max`.  For
`solid_plate` the height doubles as the base thickness.  The builders cannot
fail on the inputs the search evaluates (all heights probed are ≥ 1 mm and the
remaining parameters are the positive CNC defaults); the error branch is
mapped to 0 and is unreachable in the search. -/
def q_for_height (fluids_available : Bool) (type_key : String) (dim : BaseDimensions)
    (delta_t material_k : ℝ) (hp : String) (h_mm : ℝ) : ℝ :=
  let base_t_local_mm := if type_key = "solid_plate" then h_mm else dim.base_thickness_mm
  match build_geometry type_key (dim.length_mm, dim.width_mm, dim.base_thickness_mm)
      (search_params type_key material_k hp h_mm) with
  | Except.ok details =>
    (estimate_heat_dissipation fluids_available details.geometry
      ⟨DEFAULT_T_AMB_C, DEFAULT_REL_HUMIDITY⟩ none delta_t
      (some (base_t_local_mm / 1000.0)) material_k
      (some details.geometry.base_area_m2)).heat_dissipation_w
  | Except.error _ => 0

/-- The 20-iteration bisection of `_find_height_for_type`; returns the final
upper bound `h_high`. -/
def bisect_height (q : ℝ → ℝ) (p_req : ℝ) : ℕ → ℝ → ℝ → ℝ
  | 0, _, h_high => h_high
  | n + 1, h_low, h_high =>
    let h_mid := 0.5 * (h_low + h_high)
    if p_req ≤ q h_mid then bisect_height q p_req n h_low h_mid
    else bisect_height q p_req n h_mid h_high

/-- The `while h_high <= H_CAP` doubling loop of `_find_height_for_type`.
The loop is modelled with a fuel parameter; with the cap 1000 and the start
`h_high = 2` the source loop runs at most 10 iterations, so any fuel ≥ 11
reproduces it exactly. -/
def expand_search (q : ℝ → ℝ) (p_req h_cap : ℝ) : ℕ → ℝ → ℝ → Option ℝ
  | 0, _, _ => none
  | n + 1, h_low, h_high =>
    if h_high ≤ h_cap then
      if p_req ≤ q h_high then some (bisect_height q p_req 20 h_low h_high)
      else expand_search q p_req h_cap n h_high (2.0 * h_high)
    else none

/-- `_find_height_for_type` of gui_dim_mode.py: start at 1 mm, expand by
doubling up to the 1000 mm cap, then bisect. -/
def find_height_for_type (fluids_available : Bool) (type_key : String)
    (dim : BaseDimensions) (delta_t p_req material_k : ℝ) : Option ℝ :=
  match HEIGHT_PARAM_MAP type_key with
  | none => none
  | some hp =>
    let q := q_for_height fluids_available type_key dim delta_t material_k hp
    if p_req ≤ q 1.0 then some 1.0
    else expand_search q p_req 1000.0 64 1.0 2.0

/-! ### Analysis facts about `tanh` used to reason about the fin-efficiency
formula `η(L) = tanh(mL)/(mL)`. -/

theorem tanh_nonneg_of_nonneg {x : ℝ} (hx : 0 ≤ x) : 0 ≤ Real.tanh x := by
  rw [Real.tanh_eq_sinh_div_cosh]
  exact div_nonneg (Real.sinh_nonneg_iff.mpr hx) (Real.cosh_pos x).le

theorem sinh_le_self_mul_cosh {x : ℝ} (hx : 0 ≤ x) :
    Real.sinh x ≤ x * Real.cosh x := by
  have hg : MonotoneOn (fun y : ℝ => y * Real.cosh y - Real.sinh y) (Set.Ici 0) := by
    apply monotoneOn_of_deriv_nonneg (convex_Ici 0)
    · exact ((continuous_id.mul Real.continuous_cosh).sub Real.continuous_sinh).continuousOn
    · intro y _
      exact (((hasDerivAt_id y).mul (Real.hasDerivAt_cosh y)).sub
        (Real.hasDerivAt_sinh y)).differentiableAt.differentiableWithinAt
    · intro y hy
      rw [interior_Ici, Set.mem_Ioi] at hy
      have hd : HasDerivAt (fun y : ℝ => y * Real.cosh y - Real.sinh y)
          (1 * Real.cosh y + y * Real.sinh y - Real.cosh y) y :=
        ((hasDerivAt_id y).mul (Real.hasDerivAt_cosh y)).sub (Real.hasDerivAt_sinh y)
      rw [hd.deriv]
      have hs : 0 ≤ Real.sinh y := Real.sinh_nonneg_iff.mpr hy.le
      nlinarith
  have h0 := hg Set.left_mem_Ici (Set.mem_Ici.mpr hx) hx
  simpa using h0

theorem tanh_le_self_of_nonneg {x : ℝ} (hx : 0 ≤ x) : Real.tanh x ≤ x := by
  rw [Real.tanh_eq_sinh_div_cosh, div_le_iff (Real.cosh_pos x)]
  exact sinh_le_self_mul_cosh hx

theorem tanh_lt_tanh {a b : ℝ} (hab : a < b) : Real.tanh a < Real.tanh b := by
  rw [Real.tanh_eq_sinh_div_cosh, Real.tanh_eq_sinh_div_cosh,
    div_lt_div_iff (Real.cosh_pos a) (Real.cosh_pos b)]
  have h2 : Real.sinh (a - b) < 0 := Real.sinh_neg_iff.mpr (by linarith)
  rw [Real.sinh_sub] at h2
  linarith

theorem hasDerivAt_tanh_real (x : ℝ) :
    HasDerivAt Real.tanh (1 / Real.cosh x ^ 2) x := by
  have hfun : Real.tanh = fun y : ℝ => Real.sinh y / Real.cosh y :=
    funext fun y => Real.tanh_eq_sinh_div_cosh y
  have h := (Real.hasDerivAt_sinh x).div (Real.hasDerivAt_cosh x) (Real.cosh_pos x).ne'
  have h1 : Real.cosh x * Real.cosh x - Real.sinh x * Real.sinh x = 1 := by
    have := Real.cosh_sq_sub_sinh_sq x
    nlinarith
  rw [hfun]
  rw [h1] at h
  exact h

theorem tanh_div_self_antitoneOn :
    AntitoneOn (fun x : ℝ => Real.tanh x / x) (Set.Ioi 0) := by
  apply antitoneOn_of_deriv_nonpos (convex_Ioi 0)
  · have hct : Continuous Real.tanh := by
      have hfun : Real.tanh = fun y : ℝ => Real.sinh y / Real.cosh y :=
        funext fun y => Real.tanh_eq_sinh_div_cosh y
      rw [hfun]
      exact Real.continuous_sinh.div Real.continuous_cosh fun x => (Real.cosh_pos x).ne'
    exact ContinuousOn.div hct.continuousOn continuousOn_id (fun x hx => ne_of_gt hx)
  · intro x hx
    rw [interior_Ioi, Set.mem_Ioi] at hx
    exact ((hasDerivAt_tanh_real x).div (hasDerivAt_id x)
      (ne_of_gt hx)).differentiableAt.differentiableWithinAt
  · intro x hx
    rw [interior_Ioi, Set.mem_Ioi] at hx
    have hd : HasDerivAt (fun y : ℝ => Real.tanh y / y)
        ((1 / Real.cosh x ^ 2 * x - Real.tanh x * 1) / x ^ 2) x :=
      (hasDerivAt_tanh_real x).div (hasDerivAt_id x) (ne_of_gt hx)
    rw [hd.deriv]
    apply div_nonpos_of_nonpos_of_nonneg _ (sq_nonneg x)
    have hc := Real.cosh_pos x
    have h1 : x ≤ Real.sinh x * Real.cosh x :=
      le_trans (Real.self_lt_sinh_iff.mpr hx).le
        (le_mul_of_one_le_right (Real.sinh_nonneg_iff.mpr hx.le) (Real.one_le_cosh x))
    rw [Real.tanh_eq_sinh_div_cosh]
    have hc2 : 0 < Real.cosh x ^ 2 := by positivity
    rw [sub_nonpos, div_mul_eq_mul_div, mul_one, div_le_div_iff hc2 hc]
    nlinarith

/-! ### Basic facts about the thermal model -/

theorem three_le_convection_coefficient (fa : Bool) (g : GeometrySummary) (dt : ℝ) :
    3 ≤ convection_coefficient_natural fa g dt := by
  unfold convection_coefficient_natural
  exact le_trans (by norm_num) (le_max_right _ 3.0)

theorem convection_coefficient_pos (fa : Bool) (g : GeometrySummary) (dt : ℝ) :
    0 < convection_coefficient_natural fa g dt :=
  lt_of_lt_of_le (by norm_num) (three_le_convection_coefficient fa g dt)

theorem a_eff_pos (g : GeometrySummary) : 0 < a_eff_of g :=
  lt_of_lt_of_le (by norm_num) (le_max_right _ _)

theorem a_base_pos (g : GeometrySummary) (bca : Option ℝ) : 0 < a_base_of g bca :=
  lt_of_lt_of_le (by norm_num) (le_max_right _ _)

theorem r_conv_pos (fa : Bool) (g : GeometrySummary) (dt : ℝ) :
    0 < r_conv_of fa g dt := by
  unfold r_conv_of
  have := mul_pos (convection_coefficient_pos fa g dt) (a_eff_pos g)
  positivity

theorem r_cond_nonneg (bt : Option ℝ) (k ab : ℝ) (hab : 0 < ab) :
    0 ≤ r_cond_of bt k ab := by
  unfold r_cond_of
  match bt with
  | none => exact le_refl 0
  | some b =>
    dsimp only
    split_ifs with h
    · exact div_nonneg h.1.le (mul_pos h.2 hab).le
    · exact le_refl 0

theorem fin_eff_nonneg (t h k c : ℝ) : 0 ≤ estimate_fin_efficiency t h k c := by
  simp only [estimate_fin_efficiency]
  split_ifs
  · norm_num
  · exact le_min (by norm_num) (le_trans (by norm_num) (le_max_left 0.0 _))

theorem fin_eff_le_one (t h k c : ℝ) : estimate_fin_efficiency t h k c ≤ 1 := by
  simp only [estimate_fin_efficiency]
  split_ifs
  · norm_num
  · exact le_trans (min_le_left 1.0 _) (by norm_num)

theorem convection_coefficient_congr (fa : Bool) (g g' : GeometrySummary) (dt : ℝ)
    (h : g.characteristic_length_m = g'.characteristic_length_m) :
    convection_coefficient_natural fa g dt = convection_coefficient_natural fa g' dt := by
  unfold convection_coefficient_natural
  rw [h]

theorem design_heat_env_independent (fa : Bool) (g : GeometrySummary)
    (env env' : Environment) (dt : ℝ) (bt : Option ℝ) (k : ℝ) (bca : Option ℝ) :
    (estimate_heat_dissipation fa g env none dt bt k bca).heat_dissipation_w =
    (estimate_heat_dissipation fa g env' none dt bt k bca).heat_dissipation_w := by
  unfold estimate_heat_dissipation
  dsimp only
  split_ifs <;> rfl

/-! ### Evaluation helpers for the geometry builders -/

theorem build_geometry_solid_plate_eval (dims : ℝ × ℝ × ℝ) (params : String → Option ℝ)
    (hT : 0 < dims.2.2) :
    build_geometry "solid_plate" dims params =
      Except.ok ⟨⟨dims.1 / 1000 * (dims.2.1 / 1000), dims.1 / 1000 * (dims.2.1 / 1000),
        max (dims.1 / 1000) (dims.2.1 / 1000)⟩, none, none⟩ := by
  unfold build_geometry build_solid_plate base_area_of characteristic_length_of convert_mm_to_m
  rw [if_pos rfl]
  dsimp only
  rw [if_neg (not_le.mpr hT)]
  norm_num

theorem build_geometry_straight_fins_dispatch (dims : ℝ × ℝ × ℝ)
    (params : String → Option ℝ) :
    build_geometry "straight_fins" dims params =
      build_straight_fins ⟨dims.1, dims.2.1, dims.2.2⟩
        (merged_get "straight_fins" params "fin_height_mm")
        (merged_get "straight_fins" params "fin_thickness_mm")
        (merged_get "straight_fins" params "fin_gap_mm")
        ((params "material_conductivity_w_mk").getD 205.0) := by
  unfold build_geometry
  rw [if_neg (by decide), if_pos rfl]

theorem build_straight_fins_eval (base : BaseDimensions) (fh ft fg k : ℝ)
    (hfh : 0 < fh) (hft : 0 < ft) (hfg : 0 < fg) (hus : 0 < base.width_mm - fg) :
    build_straight_fins base fh ft fg k =
      Except.ok ⟨⟨base_area_of base,
        effective_area_with_fins (base_area_of base)
          (((⌊(base.width_mm - fg) / (ft + fg)⌋ + 1 : ℤ) : ℝ) * 2 *
            convert_mm_to_m fh * convert_mm_to_m base.length_mm)
          (estimate_fin_efficiency ft fh k 8.0),
        characteristic_length_of base⟩,
        some (⌊(base.width_mm - fg) / (ft + fg)⌋ + 1),
        some (((⌊(base.width_mm - fg) / (ft + fg)⌋ + 1 : ℤ) : ℝ) * 2 *
          convert_mm_to_m fh * convert_mm_to_m base.length_mm)⟩ := by
  unfold build_straight_fins
  rw [if_neg (not_le.mpr hfh), if_neg (not_le.mpr hft), if_neg (not_le.mpr hfg),
    if_neg (by push_neg; exact ⟨by linarith, hus⟩)]

/-- C8: for every positive length, width and base thickness, `build_geometry`
for `solid_plate` returns a geometry whose base and effective areas both equal
`length_m * width_m`, with no fin count reported. -/
theorem c8_solid_plate_base_eq_effective (dims : ℝ × ℝ × ℝ) (params : String → Option ℝ)
    (hL : 0 < dims.1) (hW : 0 < dims.2.1) (hT : 0 < dims.2.2) :
    build_geometry "solid_plate" dims params =
      Except.ok ⟨⟨dims.1 / 1000 * (dims.2.1 / 1000), dims.1 / 1000 * (dims.2.1 / 1000),
        max (dims.1 / 1000) (dims.2.1 / 1000)⟩, none, none⟩ :=
  build_geometry_solid_plate_eval dims params hT

/-- Witness for C8 at the concrete plate 100×50×5 mm. -/
theorem c8_solid_plate_base_eq_effective_witness :
    build_geometry "solid_plate" (100, 50, 5) (fun _ => none) =
      Except.ok ⟨⟨(100 : ℝ) / 1000 * (50 / 1000), (100 : ℝ) / 1000 * (50 / 1000),
        max ((100 : ℝ) / 1000) ((50 : ℝ) / 1000)⟩, none, none⟩ :=
  c8_solid_plate_base_eq_effective (100, 50, 5) (fun _ => none)
    (by norm_num) (by norm_num) (by norm_num)

/-- C9: any archetype key outside the registry fails with the
unknown-type error, for all dimensions and parameters. -/
theorem c9_unknown_type_error (key : String) (dims : ℝ × ℝ × ℝ)
    (params : String → Option ℝ)
    (h1 : key ≠ "solid_plate") (h2 : key ≠ "straight_fins")
    (h3 : key ≠ "crosscut") (h4 : key ≠ "pin_fin") :
    build_geometry key dims params =
      Except.error ("Unknown heatsink type: " ++ key) := by
  unfold build_geometry
  rw [if_neg h1, if_neg h2, if_neg h3, if_neg h4]

/-- Witness for C9 at the key "spiky". -/
theorem c9_unknown_type_error_witness :
    build_geometry "spiky" (100, 50, 5) (fun _ => none) =
      Except.error ("Unknown heatsink type: " ++ "spiky") :=
  c9_unknown_type_error "spiky" (100, 50, 5) (fun _ => none)
    (by decide) (by decide) (by decide) (by decide)

theorem build_geometry_crosscut_dispatch (dims : ℝ × ℝ × ℝ)
    (params : String → Option ℝ) :
    build_geometry "crosscut" dims params =
      build_crosscut ⟨dims.1, dims.2.1, dims.2.2⟩
        (merged_get "crosscut" params "pin_height_mm")
        (merged_get "crosscut" params "pin_size_mm")
        (merged_get "crosscut" params "groove_width_mm")
        ((params "material_conductivity_w_mk").getD 205.0) := by
  unfold build_geometry
  rw [if_neg (by decide), if_neg (by decide), if_pos rfl]

theorem build_geometry_pin_fin_dispatch (dims : ℝ × ℝ × ℝ)
    (params : String → Option ℝ) :
    build_geometry "pin_fin" dims params =
      build_pin_fin ⟨dims.1, dims.2.1, dims.2.2⟩
        (merged_get "pin_fin" params "pin_height_mm")
        (merged_get "pin_fin" params "pin_size_mm")
        (merged_get "pin_fin" params "pitch_mm")
        ((params "material_conductivity_w_mk").getD 205.0) := by
  unfold build_geometry
  rw [if_neg (by decide), if_neg (by decide), if_neg (by decide), if_pos rfl]

theorem base_area_nonneg (base : BaseDimensions)
    (hL : 0 ≤ base.length_mm) (hW : 0 ≤ base.width_mm) : 0 ≤ base_area_of base := by
  unfold base_area_of convert_mm_to_m
  exact mul_nonneg (div_nonneg hL (by norm_num)) (div_nonneg hW (by norm_num))

/-- C5: every `GeometrySummary` returned by `build_geometry` for a registered
archetype (with the footprint nonnegative, as guaranteed by `BaseDimensions`)
satisfies `effective_area_m2 ≥ base_area_m2 ≥ 0`. -/
theorem c5_area_invariant (key : String) (dims : ℝ × ℝ × ℝ)
    (params : String → Option ℝ) (d : GeometryDetails)
    (hkey : key = "solid_plate" ∨ key = "straight_fins" ∨ key = "crosscut" ∨
      key = "pin_fin")
    (hL : 0 ≤ dims.1) (hW : 0 ≤ dims.2.1)
    (hok : build_geometry key dims params = Except.ok d) :
    0 ≤ d.geometry.base_area_m2 ∧
      d.geometry.base_area_m2 ≤ d.geometry.effective_area_m2 := by
  have hba : 0 ≤ base_area_of ⟨dims.1, dims.2.1, dims.2.2⟩ :=
    base_area_nonneg _ hL hW
  rcases hkey with h | h | h | h <;> subst h
  · unfold build_geometry at hok
    rw [if_pos rfl] at hok
    simp only [build_solid_plate] at hok
    split_ifs at hok with h1
    injection hok with h
    subst h
    exact ⟨hba, le_refl _⟩
  · rw [build_geometry_straight_fins_dispatch] at hok
    simp only [build_straight_fins] at hok
    split_ifs at hok with h1 h2 h3 h4
    push_neg at h1 h2 h3 h4
    injection hok with h
    subst h
    refine ⟨hba, le_add_of_nonneg_right (mul_nonneg (fin_eff_nonneg _ _ _ _) ?_)⟩
    have hcount : (0 : ℤ) ≤ ⌊(dims.2.1 - merged_get "straight_fins" params "fin_gap_mm") /
        (merged_get "straight_fins" params "fin_thickness_mm" +
          merged_get "straight_fins" params "fin_gap_mm")⌋ + 1 := by
      have hq : (0 : ℝ) ≤ (dims.2.1 - merged_get "straight_fins" params "fin_gap_mm") /
          (merged_get "straight_fins" params "fin_thickness_mm" +
            merged_get "straight_fins" params "fin_gap_mm") :=
        div_nonneg h4.2.le h4.1.le
      have := Int.floor_nonneg.mpr hq
      omega
    unfold convert_mm_to_m
    have hc : (0 : ℝ) ≤ ((⌊(dims.2.1 - merged_get "straight_fins" params "fin_gap_mm") /
        (merged_get "straight_fins" params "fin_thickness_mm" +
          merged_get "straight_fins" params "fin_gap_mm")⌋ + 1 : ℤ) : ℝ) := by
      exact_mod_cast hcount
    exact mul_nonneg (mul_nonneg (mul_nonneg hc (by norm_num))
      (div_nonneg h1.le (by norm_num))) (div_nonneg hL (by norm_num))
  · rw [build_geometry_crosscut_dispatch] at hok
    simp only [build_crosscut] at hok
    split_ifs at hok with h1 h2 h3 h4
    push_neg at h1 h2 h3 h4
    injection hok with h
    subst h
    refine ⟨hba, le_add_of_nonneg_right (mul_nonneg (fin_eff_nonneg _ _ _ _) ?_)⟩
    have hcount : (0 : ℤ) ≤ max ⌊(dims.1 + merged_get "crosscut" params "groove_width_mm") /
          (merged_get "crosscut" params "pin_size_mm" +
            merged_get "crosscut" params "groove_width_mm")⌋ 1 *
        max ⌊(dims.2.1 + merged_get "crosscut" params "groove_width_mm") /
          (merged_get "crosscut" params "pin_size_mm" +
            merged_get "crosscut" params "groove_width_mm")⌋ 1 :=
      mul_nonneg (le_trans zero_le_one (le_max_right _ 1))
        (le_trans zero_le_one (le_max_right _ 1))
    have hc : (0 : ℝ) ≤ ((max ⌊(dims.1 + merged_get "crosscut" params "groove_width_mm") /
          (merged_get "crosscut" params "pin_size_mm" +
            merged_get "crosscut" params "groove_width_mm")⌋ 1 *
        max ⌊(dims.2.1 + merged_get "crosscut" params "groove_width_mm") /
          (merged_get "crosscut" params "pin_size_mm" +
            merged_get "crosscut" params "groove_width_mm")⌋ 1 : ℤ) : ℝ) := by
      exact_mod_cast hcount
    unfold convert_mm_to_m
    exact mul_nonneg (mul_nonneg (mul_nonneg hc (by norm_num))
      (div_nonneg h2.le (by norm_num))) (div_nonneg h1.le (by norm_num))
  · rw [build_geometry_pin_fin_dispatch] at hok
    simp only [build_pin_fin] at hok
    split_ifs at hok with h1 h2 h3
    push_neg at h1 h2 h3
    injection hok with h
    subst h
    refine ⟨hba, le_add_of_nonneg_right (mul_nonneg (fin_eff_nonneg _ _ _ _) ?_)⟩
    have hcount : (0 : ℤ) ≤ max ⌊(dims.1 + merged_get "pin_fin" params "pitch_mm" -
          merged_get "pin_fin" params "pin_size_mm") /
          merged_get "pin_fin" params "pitch_mm"⌋ 1 *
        max ⌊(dims.2.1 + merged_get "pin_fin" params "pitch_mm" -
          merged_get "pin_fin" params "pin_size_mm") /
          merged_get "pin_fin" params "pitch_mm"⌋ 1 :=
      mul_nonneg (le_trans zero_le_one (le_max_right _ 1))
        (le_trans zero_le_one (le_max_right _ 1))
    have hc : (0 : ℝ) ≤ ((max ⌊(dims.1 + merged_get "pin_fin" params "pitch_mm" -
          merged_get "pin_fin" params "pin_size_mm") /
          merged_get "pin_fin" params "pitch_mm"⌋ 1 *
        max ⌊(dims.2.1 + merged_get "pin_fin" params "pitch_mm" -
          merged_get "pin_fin" params "pin_size_mm") /
          merged_get "pin_fin" params "pitch_mm"⌋ 1 : ℤ) : ℝ) := by
      exact_mod_cast hcount
    unfold convert_mm_to_m
    exact mul_nonneg (mul_nonneg (mul_nonneg hc (by norm_num))
      (div_nonneg h2.le (by norm_num))) (div_nonneg h1.le (by norm_num))

/-- Witness for C5 at a concrete 100×50×5 mm solid plate. -/
theorem c5_area_invariant_witness :
    0 ≤ (GeometryDetails.mk
        ⟨(100 : ℝ) / 1000 * (50 / 1000), (100 : ℝ) / 1000 * (50 / 1000),
          max ((100 : ℝ) / 1000) ((50 : ℝ) / 1000)⟩ none none).geometry.base_area_m2 ∧
      (GeometryDetails.mk
        ⟨(100 : ℝ) / 1000 * (50 / 1000), (100 : ℝ) / 1000 * (50 / 1000),
          max ((100 : ℝ) / 1000) ((50 : ℝ) / 1000)⟩ none
        none).geometry.base_area_m2 ≤
      (GeometryDetails.mk
        ⟨(100 : ℝ) / 1000 * (50 / 1000), (100 : ℝ) / 1000 * (50 / 1000),
          max ((100 : ℝ) / 1000) ((50 : ℝ) / 1000)⟩ none
        none).geometry.effective_area_m2 :=
  c5_area_invariant "solid_plate" (100, 50, 5) (fun _ => none) _
    (Or.inl rfl) (by norm_num) (by norm_num)
    (build_geometry_solid_plate_eval (100, 50, 5) (fun _ => none) (by norm_num))

/-- C4: `estimate_fin_efficiency` lies in `[0, 1]` for positive inputs,
returns exactly 0 when the thickness or height is nonpositive, and (at the
default convection coefficient 8.0) is monotonically non-increasing in the
height for fixed positive thickness and conductivity. -/
theorem c4_fin_efficiency_props :
    (∀ t h k : ℝ, 0 < t → 0 < h → 0 < k →
      0 ≤ estimate_fin_efficiency t h k 8.0 ∧ estimate_fin_efficiency t h k 8.0 ≤ 1) ∧
    (∀ t h k c : ℝ, t ≤ 0 ∨ h ≤ 0 → estimate_fin_efficiency t h k c = 0) ∧
    (∀ t k h₁ h₂ : ℝ, 0 < t → 0 < k → 0 < h₁ → h₁ ≤ h₂ →
      estimate_fin_efficiency t h₂ k 8.0 ≤ estimate_fin_efficiency t h₁ k 8.0) := by
  refine ⟨fun t h k _ _ _ => ⟨fin_eff_nonneg t h k 8.0, fin_eff_le_one t h k 8.0⟩,
    fun t h k c hth => ?_, fun t k h₁ h₂ ht hk hh₁ hh => ?_⟩
  · simp only [estimate_fin_efficiency, convert_mm_to_m]
    have hcond : t / 1000.0 ≤ 0 ∨ h / 1000.0 ≤ 0 := by
      rcases hth with ht | hh
      · exact Or.inl (div_nonpos_iff.mpr (Or.inr ⟨ht, by norm_num⟩))
      · exact Or.inr (div_nonpos_iff.mpr (Or.inr ⟨hh, by norm_num⟩))
    rw [if_pos hcond]
    norm_num
  · have hm : 0 < Real.sqrt (2.0 * 8.0 / (k * (t / 1000.0))) := by
      apply Real.sqrt_pos.mpr
      positivity
    have hh₂ : 0 < h₂ := lt_of_lt_of_le hh₁ hh
    simp only [estimate_fin_efficiency, convert_mm_to_m]
    rw [if_neg (by push_neg; constructor <;> positivity),
      if_neg (by push_neg; constructor <;> positivity)]
    have hx₁ : Real.sqrt (2.0 * 8.0 / (k * (t / 1000.0))) * (h₁ / 1000.0) ∈
        Set.Ioi (0 : ℝ) := Set.mem_Ioi.mpr (by positivity)
    have hx₂ : Real.sqrt (2.0 * 8.0 / (k * (t / 1000.0))) * (h₂ / 1000.0) ∈
        Set.Ioi (0 : ℝ) := Set.mem_Ioi.mpr (by positivity)
    have hxle : Real.sqrt (2.0 * 8.0 / (k * (t / 1000.0))) * (h₁ / 1000.0) ≤
        Real.sqrt (2.0 * 8.0 / (k * (t / 1000.0))) * (h₂ / 1000.0) := by
      apply mul_le_mul_of_nonneg_left _ hm.le
      linarith
    have hmono := tanh_div_self_antitoneOn hx₁ hx₂ hxle
    simp only at hmono
    exact min_le_min (le_refl 1.0) (max_le_max (le_refl 0.0) hmono)

/-- Witness for C4 at thickness 2 mm, conductivity 205, heights 10 and 20 mm. -/
theorem c4_fin_efficiency_props_witness :
    (0 ≤ estimate_fin_efficiency 2 10 205 8.0 ∧
      estimate_fin_efficiency 2 10 205 8.0 ≤ 1) ∧
    estimate_fin_efficiency 2 (-1) 205 8.0 = 0 ∧
    estimate_fin_efficiency 2 20 205 8.0 ≤ estimate_fin_efficiency 2 10 205 8.0 :=
  ⟨c4_fin_efficiency_props.1 2 10 205 (by norm_num) (by norm_num) (by norm_num),
    c4_fin_efficiency_props.2.1 2 (-1) 205 8.0 (Or.inr (by norm_num)),
    c4_fin_efficiency_props.2.2 2 205 10 20 (by norm_num) (by norm_num)
      (by norm_num) (by norm_num)⟩

/-- C10: every `heat_dissipation_w` stored by `generate_performance_curve` is
the same value, independent of the swept ambient temperature and humidity —
the whole curve family is constant in its second components. -/
theorem c10_curve_points_constant (fa : Bool) (g : GeometrySummary) (hums : List ℝ)
    (trange : ℤ × ℤ × ℤ) (dt : ℝ) (bt : Option ℝ) (k : ℝ) (bca : Option ℝ) :
    generate_performance_curve fa g hums trange dt bt k bca =
      hums.map (fun rh => (rh, (temps_of_range trange).map (fun temp =>
        ((temp : ℝ),
          (estimate_heat_dissipation fa g ⟨DEFAULT_T_AMB_C, DEFAULT_REL_HUMIDITY⟩ none dt
            bt k bca).heat_dissipation_w)))) := by
  unfold generate_performance_curve
  refine List.map_congr_left fun rh _ => ?_
  refine congrArg (fun l => (rh, l)) ?_
  refine List.map_congr_left fun temp _ => ?_
  exact congrArg (fun q => ((temp : ℝ), q))
    (design_heat_env_independent fa g ⟨(temp : ℝ), rh⟩
      ⟨DEFAULT_T_AMB_C, DEFAULT_REL_HUMIDITY⟩ dt bt k bca)

/-! ### Convection-coefficient evaluations used by the C1 counterexample. -/

theorem churchill_denominator_le_two :
    ((1 : ℝ) + (0.492 / 0.71) ^ ((9.0 : ℝ) / 16.0)) ^ ((4.0 : ℝ) / 9.0) ≤ 2 := by
  have h1 : (0.492 / 0.71 : ℝ) ^ ((9.0 : ℝ) / 16.0) ≤ 1 :=
    Real.rpow_le_one (by norm_num) (by norm_num) (by norm_num)
  have h2 : (0 : ℝ) ≤ (0.492 / 0.71 : ℝ) ^ ((9.0 : ℝ) / 16.0) :=
    Real.rpow_nonneg (by norm_num) _
  calc ((1 : ℝ) + (0.492 / 0.71) ^ ((9.0 : ℝ) / 16.0)) ^ ((4.0 : ℝ) / 9.0)
      ≤ (2 : ℝ) ^ ((4.0 : ℝ) / 9.0) :=
        Real.rpow_le_rpow (by linarith) (by linarith) (by norm_num)
    _ ≤ (2 : ℝ) ^ (1 : ℝ) :=
        Real.rpow_le_rpow_of_exponent_le (by norm_num) (by norm_num)
    _ = 2 := Real.rpow_one 2

theorem churchill_denominator_pos :
    0 < ((1 : ℝ) + (0.492 / 0.71) ^ ((9.0 : ℝ) / 16.0)) ^ ((4.0 : ℝ) / 9.0) := by
  have h2 : (0 : ℝ) ≤ (0.492 / 0.71 : ℝ) ^ ((9.0 : ℝ) / 16.0) :=
    Real.rpow_nonneg (by norm_num) _
  exact Real.rpow_pos_of_pos (by linarith) _

theorem conv_coeff_unit_plate_zero_dt :
    convection_coefficient_natural false ⟨1, 1, 1⟩ 0 = 3 := by
  unfold convection_coefficient_natural compute_air_properties DEFAULT_T_AMB_C
    DEFAULT_REL_HUMIDITY AIR_DENSITY AIR_THERMAL_CONDUCTIVITY AIR_PRANDTL AIR_VISCOSITY
  dsimp only
  rw [if_neg (by norm_num : ¬ (false = true))]
  have hray : (9.81 * (1.0 / (25.0 + 273.15)) * (0 : ℝ) * (1 : ℝ) ^ 3 * 1.184 ^ 2 /
      1.85e-5 ^ 2 * 0.71) = 0 := by norm_num
  rw [hray, Real.zero_rpow (by norm_num : (0.25 : ℝ) ≠ 0)]
  have hC := churchill_denominator_pos
  rw [max_eq_right (by rw [mul_zero, zero_div, add_zero]; norm_num)]
  norm_num

theorem conv_coeff_unit_plate_large_dt :
    3 < convection_coefficient_natural false ⟨1, 1, 1⟩ 1000000 := by
  unfold convection_coefficient_natural compute_air_properties DEFAULT_T_AMB_C
    DEFAULT_REL_HUMIDITY AIR_DENSITY AIR_THERMAL_CONDUCTIVITY AIR_PRANDTL AIR_VISCOSITY
  dsimp only
  rw [if_neg (by norm_num : ¬ (false = true))]
  apply lt_max_iff.mpr
  left
  have hray : (1.6e13 : ℝ) ≤ 9.81 * (1.0 / (25.0 + 273.15)) * (1000000 : ℝ) * (1 : ℝ) ^ 3 *
      1.184 ^ 2 / 1.85e-5 ^ 2 * 0.71 := by norm_num
  have hrq : (2000 : ℝ) ≤ (9.81 * (1.0 / (25.0 + 273.15)) * (1000000 : ℝ) * (1 : ℝ) ^ 3 *
      1.184 ^ 2 / 1.85e-5 ^ 2 * 0.71) ^ (0.25 : ℝ) := by
    calc (2000 : ℝ) = ((1.6e13 : ℝ)) ^ (0.25 : ℝ) := by
          rw [show (1.6e13 : ℝ) = 2000 ^ (4 : ℕ) by norm_num,
            ← Real.rpow_natCast 2000 4, ← Real.rpow_mul (by norm_num)]
          norm_num
      _ ≤ _ := Real.rpow_le_rpow (by norm_num) hray (by norm_num)
  have hC2 := churchill_denominator_le_two
  have hC0 := churchill_denominator_pos
  have hdiv : (0.67 : ℝ) * 2000 / 2 ≤
      0.67 * (9.81 * (1.0 / (25.0 + 273.15)) * (1000000 : ℝ) * (1 : ℝ) ^ 3 *
        1.184 ^ 2 / 1.85e-5 ^ 2 * 0.71) ^ (0.25 : ℝ) /
      ((1 + (0.492 / 0.71) ^ ((9.0 : ℝ) / 16.0)) ^ ((4.0 : ℝ) / 9.0)) := by
    apply div_le_div (by positivity) (by nlinarith) hC0 hC2
  nlinarith

/-- C1 counterexample: in verification mode, two calls that differ only in
`target_overtemp_c` return the same `heat_dissipation_w` but DIFFERENT
`surface_temperature_c` (the convection coefficient, hence `R_conv`, is
evaluated at `target_overtemp_c`). -/
theorem c1_counterexample :
    (estimate_heat_dissipation false ⟨1, 1, 1⟩ ⟨25, 50⟩ (some 100) 0 none 167
        none).heat_dissipation_w =
      (estimate_heat_dissipation false ⟨1, 1, 1⟩ ⟨25, 50⟩ (some 100) 1000000 none 167
        none).heat_dissipation_w ∧
    (estimate_heat_dissipation false ⟨1, 1, 1⟩ ⟨25, 50⟩ (some 100) 0 none 167
        none).surface_temperature_c ≠
      (estimate_heat_dissipation false ⟨1, 1, 1⟩ ⟨25, 50⟩ (some 100) 1000000 none 167
        none).surface_temperature_c := by
  constructor
  · unfold estimate_heat_dissipation
    rfl
  · unfold estimate_heat_dissipation
    dsimp only
    have haeff : a_eff_of ⟨1, 1, 1⟩ = 1 := by
      unfold a_eff_of
      dsimp only
      rw [max_eq_left (by norm_num)]
    have h1 : r_conv_of false ⟨1, 1, 1⟩ 0 = 1 / 3 := by
      unfold r_conv_of
      rw [conv_coeff_unit_plate_zero_dt, haeff, mul_one]
      norm_num
    have h2 : r_conv_of false ⟨1, 1, 1⟩ 1000000 < 1 / 3 := by
      unfold r_conv_of
      rw [haeff, mul_one]
      have hgt := conv_coeff_unit_plate_large_dt
      rw [div_lt_div_iff (by linarith) (by norm_num)]
      linarith
    rw [h1]
    intro heq
    have : max (100 : ℝ) 0 * r_conv_of false ⟨1, 1, 1⟩ 1000000 <
        max (100 : ℝ) 0 * (1 / 3) := by
      apply mul_lt_mul_of_pos_left h2
      rw [max_eq_left (by norm_num)]
      norm_num
    linarith [this, heq]

/-- C1 amended: in verification mode `heat_dissipation_w = max(power, 0)` and
is independent of `target_overtemp_c`, and
`surface_temperature_c = ambient + Q·R_conv`; but `R_conv` is evaluated at the
supplied `target_overtemp_c`, so the surface temperature is NOT independent of
it in general. -/
theorem c1_amended (fa : Bool) (g : GeometrySummary) (env : Environment)
    (p dt dt' : ℝ) (bt : Option ℝ) (k : ℝ) (bca : Option ℝ) :
    (estimate_heat_dissipation fa g env (some p) dt bt k bca).heat_dissipation_w =
      max p 0 ∧
    (estimate_heat_dissipation fa g env (some p) dt bt k bca).heat_dissipation_w =
      (estimate_heat_dissipation fa g env (some p) dt' bt k bca).heat_dissipation_w ∧
    (estimate_heat_dissipation fa g env (some p) dt bt k bca).surface_temperature_c =
      env.temperature_c + max p 0 * r_conv_of fa g dt := by
  unfold estimate_heat_dissipation
  exact ⟨rfl, rfl, rfl⟩

/-- C3: the design-mode/verification-mode round trip returns exactly the same
surface temperature (stronger than "within floating-point tolerance").  The
`0 ≤ dt` hypothesis delimits the program's domain: for a negative ΔT the
Python source raises a `TypeError` inside `convection_coefficient_natural`
(`rayleigh ** 0.25` with a negative Rayleigh number is complex and `max`
fails), so no pair of results exists to compare there. -/
theorem c3_roundtrip (fa : Bool) (g : GeometrySummary) (env : Environment)
    (dt : ℝ) (bt : Option ℝ) (k : ℝ) (bca : Option ℝ) (hdt : 0 ≤ dt) :
    (estimate_heat_dissipation fa g env
        (some ((estimate_heat_dissipation fa g env none dt bt k
          bca).heat_dissipation_w)) dt bt k bca).surface_temperature_c =
      (estimate_heat_dissipation fa g env none dt bt k bca).surface_temperature_c := by
  have hrc := r_conv_pos fa g dt
  have hrd := r_cond_nonneg bt k _ (a_base_pos g bca)
  have hrt : 0 < r_conv_of fa g dt + r_cond_of bt k (a_base_of g bca) := by linarith
  unfold estimate_heat_dissipation
  simp only [if_neg (not_le.mpr hrt)]
  rw [max_eq_left (div_nonneg hdt hrt.le)]

/-- Witness for C3 at a concrete configuration (unit-area geometry, default
ambient, ΔT = 40). -/
theorem c3_roundtrip_witness :
    (estimate_heat_dissipation false ⟨1, 1, 1⟩ ⟨25, 50⟩
        (some ((estimate_heat_dissipation false ⟨1, 1, 1⟩ ⟨25, 50⟩ none 40 none 167
          none).heat_dissipation_w)) 40 none 167 none).surface_temperature_c =
      (estimate_heat_dissipation false ⟨1, 1, 1⟩ ⟨25, 50⟩ none 40 none 167
        none).surface_temperature_c :=
  c3_roundtrip false ⟨1, 1, 1⟩ ⟨25, 50⟩ 40 none 167 none (by norm_num)

/-! ### C6 and C7: parameter validation and the straight-fins fin count. -/

/-- A parameter map supplying a nonpositive `base_thickness_mm` (a parameter
listed in the `HeatsinkType` schema of `straight_fins`, with `min_value` 1.0).
All other parameters fall back to the CNC defaults. -/
def c6_params : String → Option ℝ := fun name =>
  if name = "base_thickness_mm" then some (-5) else none

/-- C6 counterexample: `build_geometry` for `straight_fins` succeeds (does not
raise) although the schema-listed parameter `base_thickness_mm` in the
parameter map is ≤ 0 — the builders never validate `base_thickness_mm` for the
finned archetypes. -/
theorem c6_counterexample :
    (build_geometry "straight_fins" (100, 50, 5) c6_params).isOk = true ∧
    merged_get "straight_fins" c6_params "base_thickness_mm" ≤ 0 := by
  constructor
  · rw [build_geometry_straight_fins_dispatch]
    have e1 : merged_get "straight_fins" c6_params "fin_height_mm" = (20.0 : ℝ) := rfl
    have e2 : merged_get "straight_fins" c6_params "fin_thickness_mm" = (2.0 : ℝ) := rfl
    have e3 : merged_get "straight_fins" c6_params "fin_gap_mm" = (3.0 : ℝ) := rfl
    have e4 : (c6_params "material_conductivity_w_mk").getD 205.0 = (205.0 : ℝ) := rfl
    rw [e1, e2, e3, e4]
    rw [build_straight_fins_eval ⟨(100, 50, 5).1, (100, 50, 5).2.1, (100, 50, 5).2.2⟩
      20.0 2.0 3.0 205.0 (by norm_num) (by norm_num) (by norm_num) (by norm_num)]
    rfl
  · have e5 : merged_get "straight_fins" c6_params "base_thickness_mm" = (-5 : ℝ) := rfl
    rw [e5]
    norm_num

/-- C6 amended: `build_geometry` validates exactly the parameters each builder
consumes — the fin/pin geometric parameters for the finned archetypes and (for
`solid_plate`) the base thickness taken from the dimension tuple — and fails
whenever one of those is ≤ 0; `base_thickness_mm` entries in the parameter map
are not validated for the finned archetypes (see the counterexample). -/
theorem c6_validation (dims : ℝ × ℝ × ℝ) (params : String → Option ℝ) :
    ((merged_get "straight_fins" params "fin_height_mm" ≤ 0 ∨
      merged_get "straight_fins" params "fin_thickness_mm" ≤ 0 ∨
      merged_get "straight_fins" params "fin_gap_mm" ≤ 0) →
      (build_geometry "straight_fins" dims params).isOk = false) ∧
    ((merged_get "crosscut" params "pin_height_mm" ≤ 0 ∨
      merged_get "crosscut" params "pin_size_mm" ≤ 0 ∨
      merged_get "crosscut" params "groove_width_mm" ≤ 0) →
      (build_geometry "crosscut" dims params).isOk = false) ∧
    ((merged_get "pin_fin" params "pin_height_mm" ≤ 0 ∨
      merged_get "pin_fin" params "pin_size_mm" ≤ 0 ∨
      merged_get "pin_fin" params "pitch_mm" ≤ 0) →
      (build_geometry "pin_fin" dims params).isOk = false) ∧
    (dims.2.2 ≤ 0 → (build_geometry "solid_plate" dims params).isOk = false) := by
  refine ⟨fun hbad => ?_, fun hbad => ?_, fun hbad => ?_, fun hbad => ?_⟩
  · rw [build_geometry_straight_fins_dispatch]
    simp only [build_straight_fins]
    split_ifs with h1 h2 h3 h4
    · rfl
    · rfl
    · rfl
    · rfl
    · rcases hbad with h | h | h
      · exact absurd h h1
      · exact absurd h h2
      · exact absurd h h3
  · rw [build_geometry_crosscut_dispatch]
    simp only [build_crosscut]
    split_ifs with h1 h2 h3 h4
    · rfl
    · rfl
    · rfl
    · rfl
    · rcases hbad with h | h | h
      · exact absurd h h1
      · exact absurd h h2
      · exact absurd h h3
  · rw [build_geometry_pin_fin_dispatch]
    simp only [build_pin_fin]
    split_ifs with h1 h2 h3
    · rfl
    · rfl
    · rfl
    · rcases hbad with h | h | h
      · exact absurd h h1
      · exact absurd h h2
      · exact absurd h h3
  · unfold build_geometry
    rw [if_pos rfl]
    simp only [build_solid_plate]
    rw [if_pos hbad]
    rfl

/-- Witness for C6 amended: a nonpositive `fin_thickness_mm` makes the
straight-fins build fail. -/
theorem c6_validation_witness :
    (build_geometry "straight_fins" (100, 50, 5)
      (fun name => if name = "fin_thickness_mm" then some (-2) else none)).isOk = false :=
  (c6_validation (100, 50, 5)
      (fun name => if name = "fin_thickness_mm" then some (-2) else none)).1
    (Or.inr (Or.inl (by
      have e : merged_get "straight_fins"
          (fun name => if name = "fin_thickness_mm" then some (-2) else none)
          "fin_thickness_mm" = (-2 : ℝ) := rfl
      rw [e]
      norm_num)))

theorem fin_eff_pos (t h k c : ℝ) (ht : 0 < t) (hh : 0 < h) (hk : 0 < k)
    (hc : 0 < c) : 0 < estimate_fin_efficiency t h k c := by
  simp only [estimate_fin_efficiency, convert_mm_to_m]
  rw [if_neg (by push_neg; constructor <;> positivity)]
  have hm : 0 < Real.sqrt (2.0 * c / (k * (t / 1000.0))) := by
    apply Real.sqrt_pos.mpr
    positivity
  have hx : 0 < Real.sqrt (2.0 * c / (k * (t / 1000.0))) * (h / 1000.0) := by positivity
  have htanh : 0 < Real.tanh (Real.sqrt (2.0 * c / (k * (t / 1000.0))) * (h / 1000.0)) := by
    rw [Real.tanh_eq_sinh_div_cosh]
    exact div_pos (Real.sinh_pos_iff.mpr hx) (Real.cosh_pos _)
  have heta : 0 < Real.tanh (Real.sqrt (2.0 * c / (k * (t / 1000.0))) * (h / 1000.0)) /
      (Real.sqrt (2.0 * c / (k * (t / 1000.0))) * (h / 1000.0)) := div_pos htanh hx
  exact lt_min (by norm_num) (lt_max_iff.mpr (Or.inr heta))

/-- C7: every successful straight-fins build has
`fin_count = ⌊(width − gap)/(thickness + gap)⌋ + 1`, and its effective area
strictly exceeds the base area (the fin count is always ≥ 1 and, with a
positive length and conductivity, the fin efficiency is > 0). -/
theorem c7_straight_fins_count (dims : ℝ × ℝ × ℝ) (params : String → Option ℝ)
    (d : GeometryDetails) (hL : 0 < dims.1)
    (hk : 0 < (params "material_conductivity_w_mk").getD 205.0)
    (hok : build_geometry "straight_fins" dims params = Except.ok d) :
    d.fin_count = some (⌊(dims.2.1 - merged_get "straight_fins" params "fin_gap_mm") /
        (merged_get "straight_fins" params "fin_thickness_mm" +
          merged_get "straight_fins" params "fin_gap_mm")⌋ + 1) ∧
    d.geometry.base_area_m2 < d.geometry.effective_area_m2 := by
  rw [build_geometry_straight_fins_dispatch] at hok
  simp only [build_straight_fins] at hok
  split_ifs at hok with h1 h2 h3 h4
  push_neg at h1 h2 h3 h4
  injection hok with h
  subst h
  refine ⟨rfl, ?_⟩
  apply lt_add_of_pos_right
  apply mul_pos (fin_eff_pos _ _ _ _ h2 h1 hk (by norm_num))
  have hcount : (0 : ℤ) < ⌊(dims.2.1 - merged_get "straight_fins" params "fin_gap_mm") /
      (merged_get "straight_fins" params "fin_thickness_mm" +
        merged_get "straight_fins" params "fin_gap_mm")⌋ + 1 := by
    have hq : (0 : ℝ) ≤ (dims.2.1 - merged_get "straight_fins" params "fin_gap_mm") /
        (merged_get "straight_fins" params "fin_thickness_mm" +
          merged_get "straight_fins" params "fin_gap_mm") :=
      div_nonneg h4.2.le h4.1.le
    have := Int.floor_nonneg.mpr hq
    omega
  have hcr : (0 : ℝ) < ((⌊(dims.2.1 - merged_get "straight_fins" params "fin_gap_mm") /
      (merged_get "straight_fins" params "fin_thickness_mm" +
        merged_get "straight_fins" params "fin_gap_mm")⌋ + 1 : ℤ) : ℝ) := by
    exact_mod_cast hcount
  unfold convert_mm_to_m
  have hL1000 : (0 : ℝ) < dims.1 / 1000.0 := by positivity
  have hh1000 : (0 : ℝ) < merged_get "straight_fins" params "fin_height_mm" / 1000.0 := by
    positivity
  positivity

/-- The details record produced by the concrete C7 scenario (120×60 mm plate,
default CNC fin parameters). -/
def c7_details : GeometryDetails :=
  ((build_geometry "straight_fins" (120, 60, 5) (fun _ => none)).toOption).getD
    ⟨⟨0, 0, 0⟩, none, none⟩

theorem c7_build_eval :
    build_geometry "straight_fins" (120, 60, 5) (fun _ => none) =
      Except.ok c7_details := by
  have e1 : merged_get "straight_fins" (fun _ => none) "fin_height_mm" = (20.0 : ℝ) := rfl
  have e2 : merged_get "straight_fins" (fun _ => none) "fin_thickness_mm" = (2.0 : ℝ) := rfl
  have e3 : merged_get "straight_fins" (fun _ => none) "fin_gap_mm" = (3.0 : ℝ) := rfl
  have e4 : (((fun _ => none) : String → Option ℝ) "material_conductivity_w_mk").getD 205.0 =
      (205.0 : ℝ) := rfl
  have heval : build_geometry "straight_fins" (120, 60, 5) (fun _ => none) =
      Except.ok ⟨⟨base_area_of ⟨(120 : ℝ), 60, 5⟩,
        effective_area_with_fins (base_area_of ⟨(120 : ℝ), 60, 5⟩)
          (((⌊((⟨(120 : ℝ), 60, 5⟩ : BaseDimensions).width_mm - 3.0) / (2.0 + 3.0)⌋ + 1 : ℤ) : ℝ) *
            2 * convert_mm_to_m 20.0 *
            convert_mm_to_m (⟨(120 : ℝ), 60, 5⟩ : BaseDimensions).length_mm)
          (estimate_fin_efficiency 2.0 20.0 205.0 8.0),
        characteristic_length_of ⟨(120 : ℝ), 60, 5⟩⟩,
        some (⌊((⟨(120 : ℝ), 60, 5⟩ : BaseDimensions).width_mm - 3.0) / (2.0 + 3.0)⌋ + 1),
        some (((⌊((⟨(120 : ℝ), 60, 5⟩ : BaseDimensions).width_mm - 3.0) / (2.0 + 3.0)⌋ + 1 : ℤ) : ℝ) *
          2 * convert_mm_to_m 20.0 *
          convert_mm_to_m (⟨(120 : ℝ), 60, 5⟩ : BaseDimensions).length_mm)⟩ := by
    rw [build_geometry_straight_fins_dispatch, e1, e2, e3, e4]
    exact build_straight_fins_eval ⟨(120 : ℝ), 60, 5⟩ 20.0 2.0 3.0 205.0
      (by norm_num) (by norm_num) (by norm_num) (by norm_num)
  unfold c7_details
  rw [heval]
  rfl

/-- Witness for C7 at the concrete 120×60 mm scenario: `fin_count` is 12 and
the effective area strictly exceeds the base area. -/
theorem c7_straight_fins_count_witness :
    c7_details.fin_count = some 12 ∧
    c7_details.geometry.base_area_m2 < c7_details.geometry.effective_area_m2 := by
  obtain ⟨h1, h2⟩ := c7_straight_fins_count (120, 60, 5) (fun _ => none) c7_details
    (by norm_num) (by norm_num) c7_build_eval
  refine ⟨?_, h2⟩
  rw [h1]
  have e2 : merged_get "straight_fins" (fun _ => none) "fin_thickness_mm" = (2.0 : ℝ) := rfl
  have e3 : merged_get "straight_fins" (fun _ => none) "fin_gap_mm" = (3.0 : ℝ) := rfl
  rw [e2, e3]
  have harg : ((120, 60, 5) : ℝ × ℝ × ℝ).2.1 - (3.0 : ℝ) = 57 := by norm_num
  have hfl : ⌊(((120, 60, 5) : ℝ × ℝ × ℝ).2.1 - (3.0 : ℝ)) / ((2.0 : ℝ) + 3.0)⌋ = 11 := by
    rw [show (((120, 60, 5) : ℝ × ℝ × ℝ).2.1 - (3.0 : ℝ)) / ((2.0 : ℝ) + 3.0) =
      (57 / 5 : ℝ) by norm_num]
    rw [Int.floor_eq_iff]
    constructor <;> norm_num
  rw [hfl]
  norm_num

/-! ### C2: the height-from-power search.

Part 1 (the returned height meets the target, pre-rounding) holds and is
proved generically below.  Part 2 ("returns a height for every target
reachable within the 1000 mm cap") is false: the doubling loop probes the
heights 1, 2, 4, …, 512 and then jumps to 1024 > 1000, so a target reachable
only at heights in (512, 1000] yields `none`.  The counterexample instantiates
the search on a 100×100 mm straight-fins plate, where `Q_max` is strictly
increasing in the fin height, with the target placed strictly between
`Q_max(512)` and `Q_max(1000)`. -/

theorem bisect_height_spec (q : ℝ → ℝ) (p : ℝ) :
    ∀ (n : ℕ) (hl hh : ℝ), p ≤ q hh → p ≤ q (bisect_height q p n hl hh) := by
  intro n
  induction n with
  | zero => intro hl hh hq; simpa [bisect_height] using hq
  | succ n ih =>
    intro hl hh hq
    simp only [bisect_height]
    split_ifs with hmid
    · exact ih _ _ hmid
    · exact ih _ _ hq

theorem expand_search_spec (q : ℝ → ℝ) (p cap : ℝ) :
    ∀ (n : ℕ) (hl hh h : ℝ), expand_search q p cap n hl hh = some h → p ≤ q h := by
  intro n
  induction n with
  | zero => intro hl hh h hcontra; exact Option.noConfusion hcontra
  | succ n ih =>
    intro hl hh h heq
    simp only [expand_search] at heq
    split_ifs at heq with h1 h2
    · injection heq with he
      subst he
      exact bisect_height_spec q p 20 hl hh h2
    · exact ih _ _ _ heq

/-- C2 amended, part 1: whenever `find_height_for_type` returns a height, the
pre-rounding dissipation at that height meets the target. -/
theorem c2_search_height_meets_target (fa : Bool) (tk : String) (dim : BaseDimensions)
    (dt p k h : ℝ) (hp : String)
    (hhp : HEIGHT_PARAM_MAP tk = some hp)
    (hf : find_height_for_type fa tk dim dt p k = some h) :
    p ≤ q_for_height fa tk dim dt k hp h := by
  unfold find_height_for_type at hf
  rw [hhp] at hf
  dsimp only at hf
  split_ifs at hf with h1
  · injection hf with he
    subst he
    exact h1
  · exact expand_search_spec _ p 1000.0 64 1.0 2.0 h hf

theorem expand_step (q : ℝ → ℝ) (p cap : ℝ) (n : ℕ) (hl hh : ℝ)
    (h1 : hh ≤ cap) (h2 : ¬ p ≤ q hh) :
    expand_search q p cap (n + 1) hl hh = expand_search q p cap n hh (2.0 * hh) := by
  simp only [expand_search]
  rw [if_pos h1, if_neg h2]

theorem expand_stop (q : ℝ → ℝ) (p cap : ℝ) (n : ℕ) (hl hh : ℝ)
    (h1 : ¬ hh ≤ cap) :
    expand_search q p cap (n + 1) hl hh = none := by
  simp only [expand_search]
  rw [if_neg h1]

/-! Concrete instance for the C2 counterexample and witness. -/

/-- The 100×100×5 mm footprint used by the C2 counterexample. -/
def cx_dim : BaseDimensions := ⟨100, 100, 5⟩

/-- The fin parameter `m = sqrt(2·h_conv/(k·t))` of the concrete instance
(CNC-default fin thickness 2 mm, conductivity 205). -/
def cx_m : ℝ := Real.sqrt (2.0 * 8.0 / (205 * (2.0 / 1000.0)))

theorem cx_m_pos : 0 < cx_m := Real.sqrt_pos.mpr (by norm_num)

/-- Effective area of the concrete straight-fins geometry as a function of the
fin height (mm): base 0.01 m² plus 20 fins of efficiency-weighted area
`4·tanh(m·h/1000)/m`. -/
def cx_eff (h : ℝ) : ℝ := 0.01 + 4 * Real.tanh (cx_m * (h / 1000.0)) / cx_m

theorem cx_eff_ge (h : ℝ) (hh : 0 < h) : 0.01 ≤ cx_eff h := by
  unfold cx_eff
  have hm := cx_m_pos
  have ht : 0 ≤ Real.tanh (cx_m * (h / 1000.0)) :=
    tanh_nonneg_of_nonneg (by positivity)
  have : 0 ≤ 4 * Real.tanh (cx_m * (h / 1000.0)) / cx_m := by positivity
  linarith

theorem cx_eff_lt (a b : ℝ) (ha : 0 < a) (hab : a < b) : cx_eff a < cx_eff b := by
  unfold cx_eff
  have hm := cx_m_pos
  have ht := tanh_lt_tanh (show cx_m * (a / 1000.0) < cx_m * (b / 1000.0) by
    apply mul_lt_mul_of_pos_left _ hm
    linarith)
  have h4 : 4 * Real.tanh (cx_m * (a / 1000.0)) < 4 * Real.tanh (cx_m * (b / 1000.0)) := by
    linarith
  apply add_lt_add_left
  exact (div_lt_div_right hm).mpr h4

theorem cx_eta_eq (h : ℝ) (hh : 0 < h) :
    estimate_fin_efficiency 2.0 h 205 8.0 =
      Real.tanh (cx_m * (h / 1000.0)) / (cx_m * (h / 1000.0)) := by
  simp only [estimate_fin_efficiency, convert_mm_to_m, cx_m]
  rw [if_neg (by push_neg; constructor <;> positivity)]
  have hm : 0 < Real.sqrt (2.0 * 8.0 / (205 * (2.0 / 1000.0))) :=
    Real.sqrt_pos.mpr (by norm_num)
  have hx : 0 < Real.sqrt (2.0 * 8.0 / (205 * (2.0 / 1000.0))) * (h / 1000.0) := by
    positivity
  have h0 : 0 ≤ Real.tanh (Real.sqrt (2.0 * 8.0 / (205 * (2.0 / 1000.0))) * (h / 1000.0)) /
      (Real.sqrt (2.0 * 8.0 / (205 * (2.0 / 1000.0))) * (h / 1000.0)) :=
    div_nonneg (tanh_nonneg_of_nonneg hx.le) hx.le
  have h1 : Real.tanh (Real.sqrt (2.0 * 8.0 / (205 * (2.0 / 1000.0))) * (h / 1000.0)) /
      (Real.sqrt (2.0 * 8.0 / (205 * (2.0 / 1000.0))) * (h / 1000.0)) ≤ 1 :=
    (div_le_one hx).mpr (tanh_le_self_of_nonneg hx.le)
  rw [show (0.0 : ℝ) = 0 by norm_num, show (1.0 : ℝ) = 1 by norm_num]
  rw [max_eq_right h0, min_eq_right h1]

theorem cx_build (h : ℝ) (hh : 0 < h) :
    build_geometry "straight_fins"
      (cx_dim.length_mm, cx_dim.width_mm, cx_dim.base_thickness_mm)
      (search_params "straight_fins" 205 "fin_height_mm" h) =
    Except.ok ⟨⟨0.01, cx_eff h, 0.1⟩, some 20, some (4 * (h / 1000.0))⟩ := by
  have hpair : (cx_dim.length_mm, cx_dim.width_mm, cx_dim.base_thickness_mm) =
      ((100 : ℝ), (100 : ℝ), (5 : ℝ)) := rfl
  rw [hpair, build_geometry_straight_fins_dispatch]
  have e1 : merged_get "straight_fins"
      (search_params "straight_fins" 205 "fin_height_mm" h) "fin_height_mm" = h := rfl
  have e2 : merged_get "straight_fins"
      (search_params "straight_fins" 205 "fin_height_mm" h) "fin_thickness_mm" =
      (2.0 : ℝ) := rfl
  have e3 : merged_get "straight_fins"
      (search_params "straight_fins" 205 "fin_height_mm" h) "fin_gap_mm" = (3.0 : ℝ) := rfl
  have e4 : ((search_params "straight_fins" 205 "fin_height_mm" h)
      "material_conductivity_w_mk").getD 205.0 = (205 : ℝ) := rfl
  rw [e1, e2, e3, e4]
  rw [build_straight_fins_eval ⟨(100 : ℝ), 100, 5⟩ h 2.0 3.0 205 hh
    (by norm_num) (by norm_num) (by dsimp only; norm_num)]
  have hfl : ⌊((⟨(100 : ℝ), 100, 5⟩ : BaseDimensions).width_mm - 3.0) / (2.0 + 3.0)⌋ = 19 := by
    rw [show ((⟨(100 : ℝ), 100, 5⟩ : BaseDimensions).width_mm - 3.0) / (2.0 + 3.0) =
      (97 / 5 : ℝ) by dsimp only; norm_num]
    rw [Int.floor_eq_iff]
    constructor <;> norm_num
  simp only [Except.ok.injEq, GeometryDetails.mk.injEq, GeometrySummary.mk.injEq,
    Option.some.injEq, hfl]
  have hmne : cx_m ≠ 0 := ne_of_gt cx_m_pos
  have hhne : h / 1000.0 ≠ 0 := by positivity
  refine ⟨⟨?_, ?_, ?_⟩, by norm_num, ?_⟩
  · unfold base_area_of convert_mm_to_m
    dsimp only
    norm_num
  · rw [cx_eta_eq h hh]
    unfold effective_area_with_fins cx_eff base_area_of convert_mm_to_m
    dsimp only
    rw [show ((19 + 1 : ℤ) : ℝ) = 20 by norm_num]
    rw [show (100 : ℝ) / 1000.0 * (100 / 1000.0) = 0.01 by norm_num]
    congr 1
    field_simp
    ring
  · unfold characteristic_length_of convert_mm_to_m
    dsimp only
    rw [max_self]
    norm_num
  · show ((19 + 1 : ℤ) : ℝ) * 2 * (h / 1000.0) * ((100 : ℝ) / 1000.0) = 4 * (h / 1000.0)
    push_cast
    ring_nf

/-- Convection coefficient of the concrete C2 geometry (it depends only on the
characteristic length 0.1 m and ΔT = 40, not on the fin height). -/
def cx_H : ℝ := convection_coefficient_natural false ⟨0.01, 0.01, 0.1⟩ 40

theorem cx_H_ge : 3 ≤ cx_H := three_le_convection_coefficient false ⟨0.01, 0.01, 0.1⟩ 40

/-- Base conduction resistance of the concrete C2 instance. -/
def cx_Rc : ℝ := 5 / 1000.0 / (205 * 0.01)

theorem cx_Rc_pos : 0 < cx_Rc := by unfold cx_Rc; norm_num

/-- Total thermal resistance of the concrete C2 instance at fin height `h`. -/
def cx_D (h : ℝ) : ℝ := 1.0 / (cx_H * cx_eff h) + cx_Rc

theorem cx_D_pos (h : ℝ) (hh : 0 < h) : 0 < cx_D h := by
  have hH : 0 < cx_H := lt_of_lt_of_le (by norm_num) cx_H_ge
  have he : (0 : ℝ) < cx_eff h := lt_of_lt_of_le (by norm_num) (cx_eff_ge h hh)
  have hr := cx_Rc_pos
  unfold cx_D
  positivity

/-- Design-mode `Q_max` of the concrete C2 instance at fin height `h`. -/
def cx_q (h : ℝ) : ℝ := 40 / cx_D h

theorem cx_q_for_height_eq (h : ℝ) (hh : 0 < h) :
    q_for_height false "straight_fins" cx_dim 40 205 "fin_height_mm" h = cx_q h := by
  simp only [q_for_height]
  rw [if_neg (by decide : ¬ ("straight_fins" = "solid_plate"))]
  rw [cx_build h hh]
  dsimp only
  unfold estimate_heat_dissipation r_conv_of r_cond_of a_eff_of a_base_of
  dsimp only
  have hH : 0 < cx_H := lt_of_lt_of_le (by norm_num) cx_H_ge
  have he : (1e-12 : ℝ) ≤ cx_eff h := le_trans (by norm_num) (cx_eff_ge h hh)
  have hcc : convection_coefficient_natural false ⟨0.01, cx_eff h, 0.1⟩ 40 = cx_H :=
    convection_coefficient_congr false ⟨0.01, cx_eff h, 0.1⟩ ⟨0.01, 0.01, 0.1⟩ 40 rfl
  rw [hcc, max_eq_left he]
  simp only [Option.getD_some]
  rw [show cx_dim.base_thickness_mm = (5 : ℝ) from rfl]
  rw [max_eq_left (by norm_num : (1e-12 : ℝ) ≤ (1e-2 : ℝ))]
  rw [if_pos (⟨by norm_num, by norm_num⟩ : 0 < (5 : ℝ) / 1000.0 ∧ 0 < (205 : ℝ))]
  have hD : 0 < 1.0 / (cx_H * cx_eff h) + 5 / 1000.0 / (205 * 0.01) := by
    have := cx_D_pos h hh
    unfold cx_D cx_Rc at this
    exact this
  rw [if_neg (not_le.mpr hD)]
  rfl

theorem cx_q_lt (a b : ℝ) (ha : 0 < a) (hab : a < b) : cx_q a < cx_q b := by
  have hb : 0 < b := ha.trans hab
  have hDb := cx_D_pos b hb
  have hDa := cx_D_pos a ha
  have hH : 0 < cx_H := lt_of_lt_of_le (by norm_num) cx_H_ge
  have hea : (0 : ℝ) < cx_eff a := lt_of_lt_of_le (by norm_num) (cx_eff_ge a ha)
  unfold cx_q
  apply div_lt_div_of_pos_left (by norm_num) hDb
  unfold cx_D
  apply add_lt_add_right
  rw [show (1.0 : ℝ) = 1 by norm_num]
  exact one_div_lt_one_div_of_lt (by positivity)
    (mul_lt_mul_of_pos_left (cx_eff_lt a b ha hab) hH)

theorem cx_q_le (a b : ℝ) (ha : 0 < a) (hab : a ≤ b) : cx_q a ≤ cx_q b := by
  rcases eq_or_lt_of_le hab with h | h
  · rw [h]
  · exact (cx_q_lt a b ha h).le

/-- The C2 counterexample target: strictly between `Q_max(512)` and
`Q_max(1000)` of the concrete instance. -/
def cx_target : ℝ :=
  (q_for_height false "straight_fins" cx_dim 40 205 "fin_height_mm" 512 +
    q_for_height false "straight_fins" cx_dim 40 205 "fin_height_mm" 1000) / 2

theorem cx_target_bounds :
    q_for_height false "straight_fins" cx_dim 40 205 "fin_height_mm" 512 < cx_target ∧
    cx_target < q_for_height false "straight_fins" cx_dim 40 205 "fin_height_mm" 1000 := by
  unfold cx_target
  rw [cx_q_for_height_eq 512 (by norm_num), cx_q_for_height_eq 1000 (by norm_num)]
  have := cx_q_lt 512 1000 (by norm_num) (by norm_num)
  constructor <;> linarith

/-- C2 counterexample: a target power reachable at 1000 mm (within the cap)
for which the search nevertheless returns `none` — the doubling loop never
probes heights in (512, 1000]. -/
theorem c2_counterexample :
    find_height_for_type false "straight_fins" cx_dim 40 cx_target 205 = none ∧
    cx_target ≤ q_for_height false "straight_fins" cx_dim 40 205 "fin_height_mm" 1000 ∧
    (1000 : ℝ) ≤ 1000 := by
  obtain ⟨hlow, hhigh⟩ := cx_target_bounds
  have hmono : ∀ x : ℝ, 0 < x → x ≤ 512 →
      ¬ cx_target ≤ q_for_height false "straight_fins" cx_dim 40 205 "fin_height_mm" x := by
    intro x hx hxle
    apply not_le.mpr
    calc q_for_height false "straight_fins" cx_dim 40 205 "fin_height_mm" x
        = cx_q x := cx_q_for_height_eq x hx
      _ ≤ cx_q 512 := cx_q_le x 512 hx hxle
      _ = q_for_height false "straight_fins" cx_dim 40 205 "fin_height_mm" 512 :=
          (cx_q_for_height_eq 512 (by norm_num)).symm
      _ < cx_target := hlow
  refine ⟨?_, hhigh.le, le_refl _⟩
  unfold find_height_for_type
  rw [show HEIGHT_PARAM_MAP "straight_fins" = some "fin_height_mm" from rfl]
  dsimp only
  rw [if_neg (hmono 1.0 (by norm_num) (by norm_num))]
  have e1 : expand_search (q_for_height false "straight_fins" cx_dim 40 205 "fin_height_mm")
      cx_target 1000.0 64 1.0 2.0 =
      expand_search (q_for_height false "straight_fins" cx_dim 40 205 "fin_height_mm")
      cx_target 1000.0 63 2.0 4.0 := by
    rw [expand_step _ _ _ _ _ _ (by norm_num) (hmono 2.0 (by norm_num) (by norm_num))]
    norm_num
  have e2 : expand_search (q_for_height false "straight_fins" cx_dim 40 205 "fin_height_mm")
      cx_target 1000.0 63 2.0 4.0 =
      expand_search (q_for_height false "straight_fins" cx_dim 40 205 "fin_height_mm")
      cx_target 1000.0 62 4.0 8.0 := by
    rw [expand_step _ _ _ _ _ _ (by norm_num) (hmono 4.0 (by norm_num) (by norm_num))]
    norm_num
  have e3 : expand_search (q_for_height false "straight_fins" cx_dim 40 205 "fin_height_mm")
      cx_target 1000.0 62 4.0 8.0 =
      expand_search (q_for_height false "straight_fins" cx_dim 40 205 "fin_height_mm")
      cx_target 1000.0 61 8.0 16.0 := by
    rw [expand_step _ _ _ _ _ _ (by norm_num) (hmono 8.0 (by norm_num) (by norm_num))]
    norm_num
  have e4 : expand_search (q_for_height false "straight_fins" cx_dim 40 205 "fin_height_mm")
      cx_target 1000.0 61 8.0 16.0 =
      expand_search (q_for_height false "straight_fins" cx_dim 40 205 "fin_height_mm")
      cx_target 1000.0 60 16.0 32.0 := by
    rw [expand_step _ _ _ _ _ _ (by norm_num) (hmono 16.0 (by norm_num) (by norm_num))]
    norm_num
  have e5 : expand_search (q_for_height false "straight_fins" cx_dim 40 205 "fin_height_mm")
      cx_target 1000.0 60 16.0 32.0 =
      expand_search (q_for_height false "straight_fins" cx_dim 40 205 "fin_height_mm")
      cx_target 1000.0 59 32.0 64.0 := by
    rw [expand_step _ _ _ _ _ _ (by norm_num) (hmono 32.0 (by norm_num) (by norm_num))]
    norm_num
  have e6 : expand_search (q_for_height false "straight_fins" cx_dim 40 205 "fin_height_mm")
      cx_target 1000.0 59 32.0 64.0 =
      expand_search (q_for_height false "straight_fins" cx_dim 40 205 "fin_height_mm")
      cx_target 1000.0 58 64.0 128.0 := by
    rw [expand_step _ _ _ _ _ _ (by norm_num) (hmono 64.0 (by norm_num) (by norm_num))]
    norm_num
  have e7 : expand_search (q_for_height false "straight_fins" cx_dim 40 205 "fin_height_mm")
      cx_target 1000.0 58 64.0 128.0 =
      expand_search (q_for_height false "straight_fins" cx_dim 40 205 "fin_height_mm")
      cx_target 1000.0 57 128.0 256.0 := by
    rw [expand_step _ _ _ _ _ _ (by norm_num) (hmono 128.0 (by norm_num) (by norm_num))]
    norm_num
  have e8 : expand_search (q_for_height false "straight_fins" cx_dim 40 205 "fin_height_mm")
      cx_target 1000.0 57 128.0 256.0 =
      expand_search (q_for_height false "straight_fins" cx_dim 40 205 "fin_height_mm")
      cx_target 1000.0 56 256.0 512.0 := by
    rw [expand_step _ _ _ _ _ _ (by norm_num) (hmono 256.0 (by norm_num) (by norm_num))]
    norm_num
  have e9 : expand_search (q_for_height false "straight_fins" cx_dim 40 205 "fin_height_mm")
      cx_target 1000.0 56 256.0 512.0 =
      expand_search (q_for_height false "straight_fins" cx_dim 40 205 "fin_height_mm")
      cx_target 1000.0 55 512.0 1024.0 := by
    rw [expand_step _ _ _ _ _ _ (by norm_num) (hmono 512.0 (by norm_num) (by norm_num))]
    norm_num
  have e10 : expand_search (q_for_height false "straight_fins" cx_dim 40 205 "fin_height_mm")
      cx_target 1000.0 55 512.0 1024.0 = none :=
    expand_stop _ _ _ _ _ _ (by norm_num)
  rw [e1, e2, e3, e4, e5, e6, e7, e8, e9, e10]

/-- Witness for C2 amended part 1: with target power 0 the search returns
1 mm, and the dissipation at 1 mm indeed meets the target. -/
theorem c2_search_height_meets_target_witness :
    (0 : ℝ) ≤ q_for_height false "straight_fins" cx_dim 40 205 "fin_height_mm" 1.0 := by
  have hq1 : (0 : ℝ) ≤ q_for_height false "straight_fins" cx_dim 40 205 "fin_height_mm" 1.0 := by
    rw [cx_q_for_height_eq 1.0 (by norm_num)]
    unfold cx_q
    exact le_of_lt (div_pos (by norm_num) (cx_D_pos 1.0 (by norm_num)))
  have hf : find_height_for_type false "straight_fins" cx_dim 40 0 205 = some 1.0 := by
    unfold find_height_for_type
    rw [show HEIGHT_PARAM_MAP "straight_fins" = some "fin_height_mm" from rfl]
    dsimp only
    rw [if_pos hq1]
  exact c2_search_height_meets_target false "straight_fins" cx_dim 40 0 205 1.0
    "fin_height_mm" rfl hf

end

end HeatsinkDesigner
